import Mathlib

/-!
Verification of the input-validation and rate-limiting core of the
PROJECT_TEMPLATE application (`src/main.py`), shallowly embedded in Lean.

Strings are modelled as `List Char` (Python `str` is a sequence of Unicode
code points).  Python dictionaries mapping identifiers to timestamp lists are
modelled as total functions with default `[]`.  Timestamps are `Int`
(milliseconds); Python's `max(0, a - b)` on naturals is Nat subtraction.
Fallible operations return `Except`.
-/

/-- Convert a Lean string literal to the `List Char` string model. -/
def chars (s : String) : List Char := s.toList

/-- Python's Unicode whitespace class: the characters stripped by `str.strip()`
and matched by `\s` in a `str` regex (`Py_UNICODE_ISSPACE`). -/
def isPyWhitespace (c : Char) : Bool :=
  let n := c.toNat
  n == 0x20 || (decide (0x9 ≤ n) && decide (n ≤ 0xD)) ||
  (decide (0x1C ≤ n) && decide (n ≤ 0x1F)) ||
  n == 0x85 || n == 0xA0 || n == 0x1680 ||
  (decide (0x2000 ≤ n) && decide (n ≤ 0x200A)) ||
  n == 0x2028 || n == 0x2029 || n == 0x202F || n == 0x205F || n == 0x3000

/-- Python `str.strip()`: drop leading and trailing whitespace. -/
def pyStrip (l : List Char) : List Char :=
  ((l.dropWhile isPyWhitespace).reverse.dropWhile isPyWhitespace).reverse

/-- Characters removed by `re.sub(r"[\x00-\x1F\x7F]", "", ...)`. -/
def isControlByte (c : Char) : Bool :=
  decide (c.toNat ≤ 0x1F) || c.toNat == 0x7F

/-- Step (2) of `sanitize_input`: remove ASCII control characters. -/
def removeControl (l : List Char) : List Char :=
  l.filter (fun c => !isControlByte c)

/-- Case-insensitive prefix test (regex literal matching under `re.IGNORECASE`). -/
def startsWithCI : List Char → List Char → Bool
  | [], _ => true
  | _ :: _, [] => false
  | p :: ps, c :: cs => (c.toLower == p.toLower) && startsWithCI ps cs

/-- Word character for the regex `\b` boundary (`\w`). -/
def isWordChar (c : Char) : Bool := c.isAlphanum || c == '_'

/-- Inner loop of the `<script...</script>` matcher.  After `<script\b[^<]*`
has been consumed, the position is at a `<` or at the end.  The regex group
`(?:(?!<\/script>)<[^<]*)*` consumes a `<` that does not open `</script>`
together with the following `[^<]*`; the match completes at `</script>`.
Fuel is the length of the remaining input (each iteration consumes ≥ 1). -/
def matchScriptLoop : Nat → List Char → Option (List Char)
  | 0, _ => none
  | fuel + 1, cs =>
    if startsWithCI (chars "</script>") cs then some (cs.drop 9)
    else
      match cs with
      | [] => none
      | c :: rest =>
        if c == '<' then matchScriptLoop fuel (rest.dropWhile (fun d => d ≠ '<'))
        else none

/-- Try to match the script-block regex
`<script\b[^<]*(?:(?!<\/script>)<[^<]*)*<\/script>` (case-insensitive)
at the start of `cs`; on success return the input remaining after the match. -/
def tryMatchScript (cs : List Char) : Option (List Char) :=
  if startsWithCI (chars "<script") cs then
    let rest := cs.drop 7
    let boundaryOk :=
      match rest.head? with
      | none => true
      | some c => !isWordChar c
    if boundaryOk then matchScriptLoop rest.length (rest.dropWhile (fun d => d ≠ '<'))
    else none
  else none

/-- `re.sub` scan for the script-block regex: at each position try a match;
on success drop the matched block and continue after it, otherwise keep the
character and move on.  Fuel is the input length. -/
def reScriptSub : Nat → List Char → List Char
  | _, [] => []
  | 0, cs => cs
  | fuel + 1, c :: rest =>
    match tryMatchScript (c :: rest) with
    | some rest' => reScriptSub fuel rest'
    | none => c :: reScriptSub fuel rest

/-- Step (3) of `sanitize_input`: remove `<script>...</script>` blocks. -/
def removeScript (l : List Char) : List Char := reScriptSub l.length l

/-- `re.sub(r"<[^>]*>", "", ...)`: a match runs from a `<` to the next `>`;
a `<` with no later `>` does not match.  Fuel is the input length. -/
def reTagSub : Nat → List Char → List Char
  | _, [] => []
  | 0, cs => cs
  | fuel + 1, c :: rest =>
    if c == '<' then
      match rest.dropWhile (fun d => d ≠ '>') with
      | [] => c :: reTagSub fuel rest
      | _ :: after => reTagSub fuel after
    else c :: reTagSub fuel rest

/-- Step (4) of `sanitize_input`: remove remaining `<...>` tag-like substrings
when `strip_html` is requested. -/
def stripTagsIf (stripHtml : Bool) (l : List Char) : List Char :=
  if stripHtml then reTagSub l.length l else l

/-- Step (5) of `sanitize_input`: `if max_length and len(s) > max_length:
s = s[:max_length]` (a `max_length` of `0` is falsy and disables truncation). -/
def truncateOpt : Option Nat → List Char → List Char
  | none, l => l
  | some m, l => if m ≠ 0 ∧ m < l.length then l.take m else l

/-- The sanitization pipeline of `sanitize_input` on an actual string, in
source order: strip, remove control characters, remove script blocks,
optionally strip HTML tags, truncate. -/
def sanitizeCore (s : List Char) (maxLength : Option Nat) (stripHtml : Bool) : List Char :=
  let s1 := pyStrip s
  let s2 := removeControl s1
  let s3 := removeScript s2
  let s4 := stripTagsIf stripHtml s3
  truncateOpt maxLength s4

/-- Model of a Python value passed where a `str` is expected. -/
inductive PyObj where
  | str (s : List Char)
  | int (n : Int)
  | pyBool (b : Bool)
  | pyNone
  deriving DecidableEq

/-- `isinstance(x, str)`. -/
def PyObj.isStr : PyObj → Bool
  | .str _ => true
  | _ => false

/-- Python exception classes raised by the embedded code. -/
inductive PyErr where
  | valueError (msg : String)
  | typeError (msg : String)
  deriving DecidableEq

/-- `sanitize_input(input_str, max_length=None, strip_html=False)`:
raises `ValueError("Input must be a string")` on non-`str` input, otherwise
runs the sanitization pipeline. -/
def sanitize_input (v : PyObj) (maxLength : Option Nat) (stripHtml : Bool) :
    Except PyErr (List Char) :=
  match v with
  | .str s => .ok (sanitizeCore s maxLength stripHtml)
  | _ => .error (.valueError "Input must be a string")

example : sanitizeCore (chars "  hi\t") none false = chars "hi" := by decide
example : sanitizeCore (chars "a<script>x</script>b") none false = chars "ab" := by decide
example : sanitizeCore (chars "<b>hi</b>") none true = chars "hi" := by decide
example : sanitizeCore (chars "abcdef") (some 3) false = chars "abc" := by decide

/-- Python substring containment `needle in hay` (the empty needle is
contained in everything). -/
def containsSub (needle : List Char) : List Char → Bool
  | [] => needle.isEmpty
  | c :: t => needle.isPrefixOf (c :: t) || containsSub needle t

/-- Python `pattern.match` for an anchored pattern `^[class]{k,}$` whose
class excludes the newline: the whole value is in the class with length ≥ k,
except that `$` also matches just before one trailing newline. -/
def matchesMinClass (p : Char → Bool) (k : Nat) (v : List Char) : Bool :=
  let body := if v.getLast? == some '\n' then v.dropLast else v
  decide (k ≤ body.length) && body.all p

/-- Character class `[a-zA-Z0-9+/=]` of the base64-like pattern. -/
def inB64Class (c : Char) : Bool :=
  c.isAlpha || c.isDigit || c == '+' || c == '/' || c == '='

/-- Character class `[a-f0-9]` under `re.IGNORECASE` of the hex-hash pattern. -/
def inHexClass (c : Char) : Bool :=
  c.isDigit || (decide ('a' ≤ c) && decide (c ≤ 'f')) ||
  (decide ('A' ≤ c) && decide (c ≤ 'F'))

/-- The `sensitive_keys` list of `is_sensitive_value`. -/
def sensitiveKeys : List (List Char) :=
  [chars "password", chars "secret", chars "key", chars "token", chars "credential"]

/-- The "common secret indicators" list of `is_sensitive_value`. -/
def secretIndicators : List (List Char) :=
  [chars "secret", chars "password", chars "token", chars "key"]

/-- `is_sensitive_value(key, value)`: sensitive key-name substring, or a
base64-like / hex-hash-like value pattern, or a secret indicator substring
in the lowercased value. -/
def is_sensitive_value (key value : List Char) : Bool :=
  let lowerKey := key.map Char.toLower
  let lowerValue := value.map Char.toLower
  if sensitiveKeys.any (fun s => containsSub s lowerKey) then true
  else if matchesMinClass inB64Class 20 value || matchesMinClass inHexClass 32 value then
    true
  else if secretIndicators.any (fun s => containsSub s lowerValue) then true
  else false

example : is_sensitive_value (chars "API_KEY") (chars "x") = true := by decide
example : is_sensitive_value (chars "PORT") (chars "3000") = false := by decide
example : is_sensitive_value (chars "X") (chars "SGVsbG8gV29ybGQ=") = false := by decide
example : is_sensitive_value (chars "X") (chars "SGVsbG8gV29ybGRISEhI") = true := by decide

/-- `RateLimiter` state: the window and request cap fixed at construction and
the per-identifier timestamp log (`self.requests`, default empty). -/
structure RateLimiter where
  window_ms : Int
  max_requests : Nat
  requests : String → List Int

/-- A freshly constructed `RateLimiter(window_ms, max_requests)`. -/
def RateLimiter.init (w : Int) (m : Nat) : RateLimiter :=
  ⟨w, m, fun _ => []⟩

/-- Point update of the `requests` dictionary. -/
def updateReq (f : String → List Int) (id : String) (l : List Int) :
    String → List Int :=
  fun k => if k = id then l else f k

/-- `RateLimiter.is_allowed(identifier)` evaluated at time `now` (ms):
prune the identifier's log to timestamps strictly inside the window and store
the pruned log back; deny if the pruned count reached `max_requests`,
otherwise append `now` and allow. -/
def RateLimiter.is_allowed (st : RateLimiter) (now : Int) (id : String) :
    Bool × RateLimiter :=
  let valid := (st.requests id).filter (fun t => now - st.window_ms < t)
  if st.max_requests ≤ valid.length then
    (false, { st with requests := updateReq st.requests id valid })
  else
    (true, { st with requests := updateReq st.requests id (valid ++ [now]) })

/-- `RateLimiter.get_remaining_requests(identifier)` evaluated at time `now`:
count timestamps inside the window and return `max(0, max_requests - count)`
(Nat subtraction); the stored state is not modified.  An identifier absent
from the dictionary (modelled as an empty log) yields `max_requests`. -/
def RateLimiter.get_remaining_requests (st : RateLimiter) (now : Int) (id : String) :
    Nat × RateLimiter :=
  let valid := (st.requests id).filter (fun t => now - st.window_ms < t)
  (st.max_requests - valid.length, st)

/-- Failure causes of `GreetingService.greet` (each a distinct
`ValueError` message in the source). -/
inductive GreetErr where
  | rateLimited
  | notAString
  | emptyName
  | badLength
  | newlineTab
  | emptyAfterSanitize
  | badCharset
  deriving DecidableEq

/-- Character class `[a-zA-Z\s\-']` of the post-sanitization name check. -/
def nameCharOk (c : Char) : Bool :=
  c.isAlpha || isPyWhitespace c || c == '-' || c == '\''

/-- `re.match(r"^[a-zA-Z\s\-']+$", s)` succeeds iff `s` is nonempty and all
its characters are in the class (the class contains the newline via `\s`,
so the `$`-before-trailing-newline case adds nothing). -/
def charsetMatch (l : List Char) : Bool :=
  !l.isEmpty && l.all nameCharOk

/-- `GreetingService.greet(name)` with app-name `app`, evaluated at time
`now` against rate-limiter state `st` (the module-global `rate_limiter`).
Returns the greeting or the first failing check's error, plus the updated
limiter state. -/
def greet (app : List Char) (now : Int) (name : PyObj) (st : RateLimiter) :
    Except GreetErr (List Char) × RateLimiter :=
  let r := st.is_allowed now "greet_function"
  if !r.1 then (.error .rateLimited, r.2)
  else
    match name with
    | .str s =>
      if (pyStrip s).isEmpty then (.error .emptyName, r.2)
      else if 50 < s.length then (.error .badLength, r.2)
      else if s.contains '\n' || s.contains '\t' then (.error .newlineTab, r.2)
      else
        let sanitized := sanitizeCore s (some 50) true
        if sanitized.isEmpty then (.error .emptyAfterSanitize, r.2)
        else if sanitized.length < 1 then (.error .badLength, r.2)
        else if !charsetMatch sanitized then (.error .badCharset, r.2)
        else
          (.ok (chars "Hello, " ++ sanitized ++ chars "! Welcome to " ++ app), r.2)
    | _ => (.error .notAString, r.2)

/-- `GreetingService.get_multiple_greetings(names)`: the list comprehension
`[self.greet(name) for name in names]`; the first exception aborts the whole
comprehension with no partial result, later names are not greeted. -/
def get_multiple_greetings (app : List Char) (now : Int) :
    List PyObj → RateLimiter → Except GreetErr (List (List Char)) × RateLimiter
  | [], st => (.ok [], st)
  | n :: ns, st =>
    match greet app now n st with
    | (.error e, st') => (.error e, st')
    | (.ok g, st') =>
      match get_multiple_greetings app now ns st' with
      | (.error e, st'') => (.error e, st'')
      | (.ok gs, st'') => (.ok (g :: gs), st'')

deriving instance DecidableEq for Except

example :
    (greet (chars "App") 0 (.str (chars "O'Connor")) (.init 1000 2)).1 =
      .ok (chars "Hello, O'Connor! Welcome to App") := by decide
example :
    (greet (chars "App") 0 (.str (chars " Bob")) (.init 1000 2)).1 =
      .ok (chars "Hello, Bob! Welcome to App") := by decide
example :
    (greet (chars "App") 0 (.str (chars "Alice123")) (.init 1000 2)).1 =
      .error .badCharset := by decide
example :
    (greet (chars "App") 0 (.str (chars "")) (.init 1000 2)).1 =
      .error .emptyName := by decide

/-- C2: `sanitize_input` on a string applies exactly, in this order: trim,
control-character removal, script-block removal, optional HTML-tag removal,
truncation to `max_length`; and the four concrete examples
`sanitize("  hi\t") = "hi"`, `sanitize("a<script>x</script>b") = "ab"`,
`sanitize("<b>hi</b>", strip_html=True) = "hi"`,
`sanitize("abcdef", max_length=3) = "abc"` all hold. -/
theorem c2_sanitize_steps :
    (∀ (s : List Char) (ml : Option Nat) (sh : Bool),
        sanitize_input (.str s) ml sh =
          .ok (truncateOpt ml (stripTagsIf sh (removeScript (removeControl (pyStrip s)))))) ∧
    sanitize_input (.str (chars "  hi\t")) none false = .ok (chars "hi") ∧
    sanitize_input (.str (chars "a<script>x</script>b")) none false = .ok (chars "ab") ∧
    sanitize_input (.str (chars "<b>hi</b>")) none true = .ok (chars "hi") ∧
    sanitize_input (.str (chars "abcdef")) (some 3) false = .ok (chars "abc") :=
  ⟨fun _ _ _ => rfl, by decide, by decide, by decide, by decide⟩

/-- C5 counterexample: on the non-string input `0`, `sanitize_input` does not
fail with a `TypeError` (it raises `ValueError("Input must be a string")`,
exactly as its own docstring documents). -/
theorem c5_counterexample :
    ¬ ∃ m, sanitize_input (.int 0) none false = .error (.typeError m) := by
  rintro ⟨m, h⟩
  simp [sanitize_input] at h

/-- C5 (amended): for every non-string input, `sanitize_input` fails with
`ValueError("Input must be a string")`. -/
theorem c5_nonstring_value_error :
    ∀ (v : PyObj) (ml : Option Nat) (sh : Bool), v.isStr = false →
      sanitize_input v ml sh = .error (.valueError "Input must be a string") := by
  intro v ml sh h
  cases v
  · simp [PyObj.isStr] at h
  · rfl
  · rfl
  · rfl

/-- C5 witness: the amended theorem applied at the concrete input `0`. -/
theorem c5_witness :
    sanitize_input (.int 0) none false = .error (.valueError "Input must be a string") :=
  c5_nonstring_value_error (.int 0) none false rfl

/-- C6 counterexample: `is_sensitive_value("X", "SGVsbG8gV29ybGQ=")` is
`false`, not `true`: the value is 16 characters long, below the 20-character
minimum of the base64-like pattern, and no other rule applies. -/
theorem c6_counterexample :
    is_sensitive_value (chars "X") (chars "SGVsbG8gV29ybGQ=") = false := by
  decide

/-- C6 (amended): `"SGVsbG8gV29ybGQ="` does not match the base64-like rule
`^[A-Za-z0-9+/=]{20,}$` (it is shorter than 20 characters), and any value
that does match that rule is classified sensitive regardless of its key. -/
theorem c6_base64_rule :
    matchesMinClass inB64Class 20 (chars "SGVsbG8gV29ybGQ=") = false ∧
    ∀ key value, matchesMinClass inB64Class 20 value = true →
      is_sensitive_value key value = true := by
  refine ⟨by decide, ?_⟩
  intro key value h
  unfold is_sensitive_value
  by_cases hk : sensitiveKeys.any (fun s => containsSub s (key.map Char.toLower)) = true
  · simp [hk]
  · simp [hk, h]

/-- C6 witness: the amended rule applied at a concrete 20-character
base64-like value. -/
theorem c6_witness :
    is_sensitive_value (chars "X") (chars "SGVsbG8gV29ybGRISEhI") = true :=
  c6_base64_rule.2 (chars "X") (chars "SGVsbG8gV29ybGRISEhI") (by decide)

/-- C7 counterexample: `greet(" Bob")` succeeds with
`"Hello, Bob! Welcome to App"`, which differs from the raw-input format
`"Hello,  Bob! Welcome to App"`: the greeting embeds the sanitized name,
not the raw input. -/
theorem c7_counterexample :
    (greet (chars "App") 0 (.str (chars " Bob")) (.init 1000 2)).1 =
      .ok (chars "Hello, Bob! Welcome to App") ∧
    (Except.ok (chars "Hello, Bob! Welcome to App") : Except GreetErr (List Char)) ≠
      .ok (chars "Hello,  Bob! Welcome to App") := by
  exact ⟨by decide, by decide⟩

/-- C7 (amended): whenever `greet` succeeds, the returned string is
`"Hello, {sanitized}! Welcome to {app_name}"` where `sanitized` is the input
run through `sanitize_input(name, max_length=50, strip_html=True)`; in
particular `greet("O'Connor")`, whose name sanitization leaves unchanged,
returns `"Hello, O'Connor! Welcome to {app}"` for the configured app name. -/
theorem c7_sanitized_greeting :
    (∀ (app : List Char) (now : Int) (name : PyObj) (st : RateLimiter)
        (res : List Char),
        (greet app now name st).1 = .ok res →
        ∃ s, name = .str s ∧
          res = chars "Hello, " ++ sanitizeCore s (some 50) true ++
            chars "! Welcome to " ++ app) ∧
    ∀ app, (greet app 0 (.str (chars "O'Connor")) (.init 1000 2)).1 =
      .ok (chars "Hello, O'Connor! Welcome to " ++ app) := by
  constructor
  · intro app now name st res h
    cases name with
    | str s =>
      refine ⟨s, rfl, ?_⟩
      simp only [greet] at h
      split at h
      · simp at h
      · split at h
        · simp at h
        · split at h
          · simp at h
          · split at h
            · simp at h
            · split at h
              · simp at h
              · split at h
                · simp at h
                · split at h
                  · simp at h
                  · simp at h
                    simpa [List.append_assoc] using h.symm
    | int n =>
      simp only [greet] at h
      split at h <;> simp at h
    | pyBool b =>
      simp only [greet] at h
      split at h <;> simp at h
    | pyNone =>
      simp only [greet] at h
      split at h <;> simp at h
  · intro app
    rfl

/-- C7 witness: the amended theorem applied at the concrete successful call
`greet("O'Connor")` with app name `"App"`. -/
theorem c7_witness :
    ∃ s, PyObj.str (chars "O'Connor") = .str s ∧
      chars "Hello, O'Connor! Welcome to App" =
        chars "Hello, " ++ sanitizeCore s (some 50) true ++
          chars "! Welcome to " ++ chars "App" :=
  c7_sanitized_greeting.1 (chars "App") 0 (.str (chars "O'Connor"))
    (.init 1000 2) (chars "Hello, O'Connor! Welcome to App") (by decide)

/-- The failure causes of `greet` as the specification lists them, each an
independent condition on the raw inputs, tried in the specified order
rate-limit → type → emptiness → length → forbidden-whitespace-chars →
post-sanitize emptiness → charset; `none` means no condition holds. -/
def specFirstError (now : Int) (name : PyObj) (st : RateLimiter) : Option GreetErr :=
  if st.max_requests ≤
      ((st.requests "greet_function").filter
        (fun t => now - st.window_ms < t)).length then
    some .rateLimited
  else
    match name with
    | .str s =>
      if (pyStrip s).isEmpty then some .emptyName
      else if 50 < s.length then some .badLength
      else if s.contains '\n' || s.contains '\t' then some .newlineTab
      else if (sanitizeCore s (some 50) true).isEmpty then some .emptyAfterSanitize
      else if !(sanitizeCore s (some 50) true).all nameCharOk then some .badCharset
      else none
    | _ => some .notAString

/-- C1: `greet(name)` fails with error `e` exactly when `e` is the first (in
the specified order rate-limit → type → emptiness → length →
forbidden-whitespace-chars → post-sanitize emptiness → charset) of the listed
conditions that holds, and succeeds exactly when none of them holds. -/
theorem c1_greet_failure_order (app : List Char) (now : Int) (name : PyObj)
    (st : RateLimiter) :
    (∀ e, (greet app now name st).1 = .error e ↔
      specFirstError now name st = some e) ∧
    ((∃ g, (greet app now name st).1 = .ok g) ↔
      specFirstError now name st = none) := by
  simp only [greet, specFirstError, RateLimiter.is_allowed]
  by_cases hC : st.max_requests ≤
      ((st.requests "greet_function").filter
        (fun t => now - st.window_ms < t)).length
  · simp [hC]
  · cases name with
    | int n => simp [hC]
    | pyBool b => simp [hC]
    | pyNone => simp [hC]
    | str s =>
      by_cases h1 : (pyStrip s).isEmpty = true
      · simp [hC, h1]
      · by_cases h2 : 50 < s.length
        · simp [hC, h1, h2]
        · by_cases h3 : '\n' ∈ s ∨ '\t' ∈ s
          · simp [hC, h1, h2, h3]
          · by_cases h4 : sanitizeCore s (some 50) true = []
            · simp [hC, h1, h2, h3, h4]
            · have h6 : charsetMatch (sanitizeCore s (some 50) true) =
                  (sanitizeCore s (some 50) true).all nameCharOk := by
                simp [charsetMatch, List.isEmpty_iff, h4]
              by_cases h7 : (sanitizeCore s (some 50) true).all nameCharOk = true
              · simp [hC, h1, h2, h3, h4, h6, h7]
              · simp [hC, h1, h2, h3, h4, h6, h7]

/-- C3: for a `RateLimiter(window_ms=1000, max_requests=2)` and the fresh
identifier `"u"`, two calls at times `t0 ≤ t1` within one window return
`true, true`; a third call at `t2` still within the window of `t0` returns
`false`; `get_remaining_requests("u")` then returns `0`; and a call at a time
`t3` past the window of both recorded timestamps returns `true` again. -/
theorem is_allowed_fst (st : RateLimiter) (now : Int) (id : String) :
    (st.is_allowed now id).1 =
      decide (((st.requests id).filter
        (fun t => now - st.window_ms < t)).length < st.max_requests) := by
  by_cases hC : st.max_requests ≤
      ((st.requests id).filter (fun t => now - st.window_ms < t)).length
  · simp [RateLimiter.is_allowed, hC]
  · simp [RateLimiter.is_allowed, hC]
    omega

theorem is_allowed_requests (st : RateLimiter) (now : Int) (id : String) :
    (st.is_allowed now id).2.requests =
      updateReq st.requests id
        (if st.max_requests ≤
            ((st.requests id).filter (fun t => now - st.window_ms < t)).length
         then (st.requests id).filter (fun t => now - st.window_ms < t)
         else (st.requests id).filter (fun t => now - st.window_ms < t) ++ [now]) := by
  by_cases hC : st.max_requests ≤
      ((st.requests id).filter (fun t => now - st.window_ms < t)).length
  · simp [RateLimiter.is_allowed, hC]
  · simp [RateLimiter.is_allowed, hC]

theorem is_allowed_window (st : RateLimiter) (now : Int) (id : String) :
    (st.is_allowed now id).2.window_ms = st.window_ms := by
  by_cases hC : st.max_requests ≤
      ((st.requests id).filter (fun t => now - st.window_ms < t)).length
  · simp [RateLimiter.is_allowed, hC]
  · simp [RateLimiter.is_allowed, hC]

theorem is_allowed_max (st : RateLimiter) (now : Int) (id : String) :
    (st.is_allowed now id).2.max_requests = st.max_requests := by
  by_cases hC : st.max_requests ≤
      ((st.requests id).filter (fun t => now - st.window_ms < t)).length
  · simp [RateLimiter.is_allowed, hC]
  · simp [RateLimiter.is_allowed, hC]

theorem c3_rate_limiter_scenario (t0 t1 t2 t3 : Int) (h01 : t0 ≤ t1)
    (h12 : t1 ≤ t2) (hw : t2 < t0 + 1000) (h3 : t1 + 1000 ≤ t3) :
    ((RateLimiter.init 1000 2).is_allowed t0 "u").1 = true ∧
    ((((RateLimiter.init 1000 2).is_allowed t0 "u").2).is_allowed t1 "u").1 = true ∧
    ((((((RateLimiter.init 1000 2).is_allowed t0 "u").2).is_allowed t1 "u").2).is_allowed
      t2 "u").1 = false ∧
    ((((((RateLimiter.init 1000 2).is_allowed t0 "u").2).is_allowed t1 "u").2).get_remaining_requests
      t2 "u").1 = 0 ∧
    ((((((RateLimiter.init 1000 2).is_allowed t0 "u").2).is_allowed t1 "u").2).is_allowed
      t3 "u").1 = true := by
  have p1 : t1 - 1000 < t0 := by omega
  have p2a : t2 - 1000 < t0 := by omega
  have p2b : t2 - 1000 < t1 := by omega
  have p3a : ¬(t3 - 1000 < t0) := by omega
  have p3b : ¬(t3 - 1000 < t1) := by omega
  have e1r : ((RateLimiter.init 1000 2).is_allowed t0 "u").2.requests "u" = [t0] := by
    rw [is_allowed_requests]
    simp [RateLimiter.init, updateReq]
  have e1w : ((RateLimiter.init 1000 2).is_allowed t0 "u").2.window_ms = 1000 :=
    is_allowed_window _ _ _
  have e1m : ((RateLimiter.init 1000 2).is_allowed t0 "u").2.max_requests = 2 :=
    is_allowed_max _ _ _
  have e2r : (((RateLimiter.init 1000 2).is_allowed t0 "u").2.is_allowed t1 "u").2.requests "u" =
      [t0, t1] := by
    rw [is_allowed_requests, e1r, e1w, e1m]
    simp [updateReq, p1]
  have e2w : (((RateLimiter.init 1000 2).is_allowed t0 "u").2.is_allowed t1 "u").2.window_ms =
      1000 := by
    rw [is_allowed_window, e1w]
  have e2m : (((RateLimiter.init 1000 2).is_allowed t0 "u").2.is_allowed t1 "u").2.max_requests =
      2 := by
    rw [is_allowed_max, e1m]
  refine ⟨?_, ?_, ?_, ?_, ?_⟩
  · rw [is_allowed_fst]
    simp [RateLimiter.init]
  · rw [is_allowed_fst, e1r, e1w, e1m]
    simp [p1]
  · rw [is_allowed_fst, e2r, e2w, e2m]
    simp [p2a, p2b]
  · simp only [RateLimiter.get_remaining_requests]
    rw [e2r, e2w, e2m]
    simp [p2a, p2b]
  · rw [is_allowed_fst, e2r, e2w, e2m]
    simp [p3a, p3b]

/-- C3 witness: the scenario at concrete times `0, 100, 200, 1200`. -/
theorem c3_witness :
    ((RateLimiter.init 1000 2).is_allowed 0 "u").1 = true ∧
    ((((RateLimiter.init 1000 2).is_allowed 0 "u").2).is_allowed 100 "u").1 = true ∧
    ((((((RateLimiter.init 1000 2).is_allowed 0 "u").2).is_allowed 100 "u").2).is_allowed
      200 "u").1 = false ∧
    ((((((RateLimiter.init 1000 2).is_allowed 0 "u").2).is_allowed 100 "u").2).get_remaining_requests
      200 "u").1 = 0 ∧
    ((((((RateLimiter.init 1000 2).is_allowed 0 "u").2).is_allowed 100 "u").2).is_allowed
      1200 "u").1 = true :=
  c3_rate_limiter_scenario 0 100 200 1200 (by decide) (by decide) (by decide) (by decide)

/-- A limiter state holding one stale timestamp (`-5000`) for `"u"`,
far outside the 1000 ms window at time `0`. -/
def staleRL : RateLimiter := ⟨1000, 2, fun k => if k = "u" then [-5000] else []⟩

/-- C4 counterexample: after the read `get_remaining_requests("u")` at time
`0`, the stale timestamp `-5000` is still stored for `"u"` even though it
lies outside `[0 - 1000, 0]`: `get_remaining_requests` filters only a local
copy and never prunes the stored state. -/
theorem c4_counterexample :
    (-5000 : Int) ∈ ((staleRL.get_remaining_requests 0 "u").2.requests "u") ∧
    ¬((0 : Int) - staleRL.window_ms ≤ -5000 ∧ (-5000 : Int) ≤ 0) := by
  exact ⟨by decide, by decide⟩

/-- C4 (amended): after `is_allowed` on an identifier at time `now` (with a
nonnegative window and no stored timestamp in the future), every timestamp
stored for that identifier lies within `[now - window_ms, now]`; stale
entries are pruned by `is_allowed` on every call, while
`get_remaining_requests` reads through the pruned view but leaves the stored
state unchanged. -/
theorem c4_prune_on_is_allowed :
    ∀ (st : RateLimiter) (now : Int) (id : String),
      0 ≤ st.window_ms → (∀ t ∈ st.requests id, t ≤ now) →
      (∀ t ∈ ((st.is_allowed now id).2.requests id),
          now - st.window_ms ≤ t ∧ t ≤ now) ∧
      (st.get_remaining_requests now id).2 = st := by
  intro st now id hw hpast
  refine ⟨?_, rfl⟩
  intro t ht
  have hsplit : (st.is_allowed now id).2.requests id =
      (st.requests id).filter (fun t => now - st.window_ms < t) ∨
      (st.is_allowed now id).2.requests id =
      (st.requests id).filter (fun t => now - st.window_ms < t) ++ [now] := by
    by_cases hC : st.max_requests ≤
        ((st.requests id).filter (fun t => now - st.window_ms < t)).length
    · left
      simp [RateLimiter.is_allowed, hC, updateReq]
    · right
      simp [RateLimiter.is_allowed, hC, updateReq]
  rcases hsplit with hh | hh <;> rw [hh] at ht
  · rcases List.mem_filter.mp ht with ⟨hmem, hdec⟩
    have : now - st.window_ms < t := by simpa using hdec
    exact ⟨le_of_lt this, hpast t hmem⟩
  · rcases List.mem_append.mp ht with h2 | h2
    · rcases List.mem_filter.mp h2 with ⟨hmem, hdec⟩
      have : now - st.window_ms < t := by simpa using hdec
      exact ⟨le_of_lt this, hpast t hmem⟩
    · have : t = now := by simpa using h2
      subst this
      exact ⟨by omega, le_refl t⟩

/-- C4 witness: the amended theorem applied to the stale state at time `0`. -/
theorem c4_witness :
    (∀ t ∈ ((staleRL.is_allowed 0 "u").2.requests "u"),
        (0 : Int) - staleRL.window_ms ≤ t ∧ t ≤ 0) ∧
    (staleRL.get_remaining_requests 0 "u").2 = staleRL :=
  c4_prune_on_is_allowed staleRL 0 "u" (by decide) (by decide)

/-- C9: when `is_allowed` denies a request, the identifier's stored log
changes only by pruning (it becomes exactly the window-filtered log, all
other identifiers untouched), and `get_remaining_requests` never changes the
stored state at all, for every identifier and limiter state. -/
theorem c9_no_record :
    ∀ (st : RateLimiter) (now : Int) (id : String),
      ((st.is_allowed now id).1 = false →
        ∀ k, (st.is_allowed now id).2.requests k =
          if k = id then (st.requests id).filter (fun t => now - st.window_ms < t)
          else st.requests k) ∧
      (st.get_remaining_requests now id).2 = st := by
  intro st now id
  refine ⟨?_, rfl⟩
  intro hfalse k
  by_cases hC : st.max_requests ≤
      ((st.requests id).filter (fun t => now - st.window_ms < t)).length
  · simp [RateLimiter.is_allowed, hC, updateReq]
  · exfalso
    simp [RateLimiter.is_allowed, hC] at hfalse

/-- C9 witness: with `max_requests = 0` the first call is denied and the
fresh identifier's log stays empty. -/
theorem c9_witness :
    ((RateLimiter.init 1000 0).is_allowed 0 "u").2.requests "u" = ([] : List Int) := by
  have h := (c9_no_record (RateLimiter.init 1000 0) 0 "u").1 (by decide) "u"
  simpa [RateLimiter.init] using h

/-- A call made to the rate limiter: either `is_allowed` or
`get_remaining_requests`, at some time, for some identifier. -/
inductive RLOp where
  | allow (now : Int) (id : String)
  | remaining (now : Int) (id : String)

/-- State reached after one rate-limiter call. -/
def applyOp (st : RateLimiter) : RLOp → RateLimiter
  | .allow now id => (st.is_allowed now id).2
  | .remaining now id => (st.get_remaining_requests now id).2

/-- State reached after a finite sequence of rate-limiter calls. -/
def runOps (ops : List RLOp) (st : RateLimiter) : RateLimiter :=
  ops.foldl applyOp st

theorem applyOp_max (st : RateLimiter) (op : RLOp) :
    (applyOp st op).max_requests = st.max_requests := by
  cases op with
  | allow now id =>
    simp only [applyOp, RateLimiter.is_allowed]
    split <;> rfl
  | remaining now id => rfl

theorem applyOp_len (st : RateLimiter) (op : RLOp)
    (h : ∀ k, (st.requests k).length ≤ st.max_requests) :
    ∀ k, ((applyOp st op).requests k).length ≤ st.max_requests := by
  cases op with
  | remaining now id => exact h
  | allow now id =>
    intro k
    simp only [applyOp, RateLimiter.is_allowed]
    split
    case isTrue hC =>
      simp only [updateReq]
      split
      · exact le_trans (List.length_filter_le _ _) (h id)
      · exact h k
    case isFalse hC =>
      simp only [updateReq]
      split
      · have hlt : ((st.requests id).filter
            (fun t => now - st.window_ms < t)).length < st.max_requests := by
          omega
        simpa using hlt
      · exact h k

theorem runOps_inv :
    ∀ (ops : List RLOp) (st : RateLimiter),
      (∀ k, (st.requests k).length ≤ st.max_requests) →
      (∀ k, ((runOps ops st).requests k).length ≤ st.max_requests) := by
  intro ops
  induction ops with
  | nil => intro st h; exact h
  | cons op ops ih =>
    intro st h
    have h1 := applyOp_len st op h
    have h2 := applyOp_max st op
    have h3 := ih (applyOp st op) (fun k => by rw [h2]; exact h1 k)
    intro k
    have : runOps (op :: ops) st = runOps ops (applyOp st op) := rfl
    rw [this]
    calc ((runOps ops (applyOp st op)).requests k).length
        ≤ (applyOp st op).max_requests := h3 k
      _ = st.max_requests := h2

/-- C10: starting from a freshly constructed limiter, after any finite
sequence of `is_allowed` / `get_remaining_requests` calls, each identifier's
stored timestamp log holds at most `max_requests` entries. -/
theorem c10_log_bounded :
    ∀ (ops : List RLOp) (w : Int) (m : Nat) (id : String),
      ((runOps ops (RateLimiter.init w m)).requests id).length ≤ m := by
  intro ops w m id
  have h := runOps_inv ops (RateLimiter.init w m)
    (fun k => by simp [RateLimiter.init])
  simpa [RateLimiter.init] using h id

/-- Rate-limiter state after greeting each name of a list in order
(the state threading performed by the comprehension in
`get_multiple_greetings`). -/
def threadSt (app : List Char) (now : Int) : List PyObj → RateLimiter → RateLimiter
  | [], st => st
  | n :: ns, st => threadSt app now ns (greet app now n st).2

/-- C8: `get_multiple_greetings` greets the names in input order: on success
the i-th returned greeting is `greet` of the i-th name evaluated in the state
threaded through its predecessors; on failure the reported error is the one
of the first name whose `greet` fails (all earlier names succeed), and no
partial list of results is returned. -/
theorem c8_all_or_nothing :
    ∀ (app : List Char) (now : Int) (names : List PyObj) (st : RateLimiter),
      (∀ gs, (get_multiple_greetings app now names st).1 = .ok gs →
        gs.length = names.length ∧
        ∀ i, i < names.length →
          ∃ nm g, (names.drop i).head? = some nm ∧ (gs.drop i).head? = some g ∧
            (greet app now nm (threadSt app now (names.take i) st)).1 = .ok g) ∧
      (∀ e, (get_multiple_greetings app now names st).1 = .error e →
        ∃ i nm, i < names.length ∧ (names.drop i).head? = some nm ∧
          (greet app now nm (threadSt app now (names.take i) st)).1 = .error e ∧
          ∀ j, j < i → ∃ nm2 g, (names.drop j).head? = some nm2 ∧
            (greet app now nm2 (threadSt app now (names.take j) st)).1 = .ok g) := by
  intro app now names
  induction names with
  | nil =>
    intro st
    constructor
    · intro gs hgs
      simp only [get_multiple_greetings] at hgs
      have : gs = [] := by simpa using hgs.symm
      subst this
      exact ⟨rfl, fun i hi => absurd hi (by simp)⟩
    · intro e he
      simp only [get_multiple_greetings] at he
      simp at he
  | cons n ns ih =>
    intro st
    cases hg : greet app now n st with
    | mk r st' =>
      have hthread : ∀ (k : Nat),
          threadSt app now ((n :: ns).take (k + 1)) st =
            threadSt app now (ns.take k) st' := by
        intro k
        have : (n :: ns).take (k + 1) = n :: ns.take k := rfl
        rw [this]
        show threadSt app now (ns.take k) (greet app now n st).2 = _
        rw [hg]
      have hzero : threadSt app now ((n :: ns).take 0) st = st := rfl
      cases r with
      | error e0 =>
        have hm : get_multiple_greetings app now (n :: ns) st = (.error e0, st') := by
          simp only [get_multiple_greetings, hg]
        constructor
        · intro gs hgs
          rw [hm] at hgs
          simp at hgs
        · intro e he
          rw [hm] at he
          simp only [] at he
          have he0 : e0 = e := by simpa using he
          subst he0
          refine ⟨0, n, by simp, by simp, ?_, ?_⟩
          · rw [hzero, hg]
          · intro j hj
            exact absurd hj (by simp)
      | ok g =>
        have hm : get_multiple_greetings app now (n :: ns) st =
            (match get_multiple_greetings app now ns st' with
             | (.error e, st'') => (.error e, st'')
             | (.ok gs, st'') => (.ok (g :: gs), st'')) := by
          simp only [get_multiple_greetings, hg]
        constructor
        · intro gs hgs
          rw [hm] at hgs
          cases hrec : get_multiple_greetings app now ns st' with
          | mk rr st'' =>
            rw [hrec] at hgs
            cases rr with
            | error e1 => simp at hgs
            | ok gs' =>
              have hgs' : gs = g :: gs' := by simpa using hgs.symm
              subst hgs'
              obtain ⟨hlen, hidx⟩ := (ih st').1 gs' (by rw [hrec])
              refine ⟨by simp [hlen], ?_⟩
              intro i hi
              cases i with
              | zero =>
                refine ⟨n, g, rfl, rfl, ?_⟩
                rw [hzero, hg]
              | succ i' =>
                have hi' : i' < ns.length := by simpa using hi
                obtain ⟨nm, g2, ha, hb, hc⟩ := hidx i' hi'
                refine ⟨nm, g2, by simpa using ha, by simpa using hb, ?_⟩
                rw [hthread i']
                exact hc
        · intro e he
          rw [hm] at he
          cases hrec : get_multiple_greetings app now ns st' with
          | mk rr st'' =>
            rw [hrec] at he
            cases rr with
            | ok gs' => simp at he
            | error e1 =>
              have he1 : e1 = e := by simpa using he
              subst he1
              obtain ⟨i, nm, hlt, hhead, herr, hprev⟩ := (ih st').2 e1 (by rw [hrec])
              refine ⟨i + 1, nm, by simpa using hlt, by simpa using hhead, ?_, ?_⟩
              · rw [hthread i]
                exact herr
              · intro j hj
                cases j with
                | zero =>
                  refine ⟨n, g, rfl, ?_⟩
                  rw [hzero, hg]
                | succ j' =>
                  have hj' : j' < i := by omega
                  obtain ⟨nm2, g2, hh, hgg⟩ := hprev j' hj'
                  refine ⟨nm2, g2, by simpa using hh, ?_⟩
                  rw [hthread j']
                  exact hgg

/-- The concrete batch `["Alice", "", "Bob"]` of the specification's example. -/
def exampleNames : List PyObj :=
  [.str (chars "Alice"), .str (chars ""), .str (chars "Bob")]

/-- C8 witness: on `["Alice", "", "Bob"]` the batch call fails (with the
emptiness error of the second name, the first invalid one) and returns no
partial results; derived by applying the theorem at this input. -/
theorem c8_witness :
    ∃ i nm, i < exampleNames.length ∧ (exampleNames.drop i).head? = some nm ∧
      (greet (chars "App") 0 nm
        (threadSt (chars "App") 0 (exampleNames.take i)
          (RateLimiter.init 1000 100))).1 = .error GreetErr.emptyName ∧
      ∀ j, j < i → ∃ nm2 g, (exampleNames.drop j).head? = some nm2 ∧
        (greet (chars "App") 0 nm2
          (threadSt (chars "App") 0 (exampleNames.take j)
            (RateLimiter.init 1000 100))).1 = .ok g :=
  (c8_all_or_nothing (chars "App") 0 exampleNames
    (RateLimiter.init 1000 100)).2 GreetErr.emptyName (by decide)
